import Mathlib

/-!
Shallow embedding of the `slice_view` library (dd::ranges::slice_view,
dd::non_propagating_cache, dd::ranges::cacheable_range) and proofs of the
specification claims about it.

Modelling choices:
* A base range `R` is modelled by its iterator-category flags (`RangeCategory`)
  together with its length `base_len : Nat`.  An iterator into the base range is
  modelled by its position: a `Nat` counting steps from `std::ranges::begin`,
  with `std::ranges::end` at position `base_len`.
* `difference_type` is modelled by `Int` (a signed integer type; the arithmetic
  performed by the library stays within `[-L, L]` of the base size, so no
  overflow reduction is needed).
* The two `mutable` cache members are threaded explicitly: member functions
  that may write them return the updated `slice_view` record alongside their
  result.
-/

namespace dd

/-- The iterator-category traits of the range parameter `R` that the library
branches on: `std::ranges::forward_range`, `std::ranges::random_access_range`
and `std::ranges::sized_range`. -/
structure RangeCategory where
  forward : Bool
  randomAccess : Bool
  sized : Bool
deriving DecidableEq, Repr

/-- From slice_view.hpp: `use_cached_iterators_ = std::ranges::forward_range<R> &&
!(std::ranges::random_access_range<R> && std::ranges::sized_range<R>)`. -/
def use_cached_iterators_ (c : RangeCategory) : Bool :=
  c.forward && !(c.randomAccess && c.sized)

/-- From cached_iterator.hpp: `concept cacheable_range = std::ranges::forward_range<R> &&
!(std::ranges::random_access_range<R> && std::ranges::sized_range<R>)`. -/
def cacheable_range (c : RangeCategory) : Bool :=
  c.forward && !(c.randomAccess && c.sized)

/-- Models `std::ranges::next(std::ranges::begin(base_), n, std::ranges::end(base_))`
on a base range of length `base_len`: advance from the start position by `n`
steps but stop at the end position.  (For `n < 0` the C++ call is undefined on
forward ranges; the constructor precondition keeps every `n` non-negative.) -/
def ranges_next (base_len : Nat) (n : Int) : Nat :=
  min n.toNat base_len

/-- Models `std::clamp(v, lo, hi)`: `v < lo ? lo : (hi < v ? hi : v)`. -/
def std_clamp (v lo hi : Int) : Int :=
  if v < lo then lo else if hi < v then hi else v

/-- From non_propagating_cache.hpp: a cache holding `std::optional<T> value_`
whose copy and move operations deliberately do not propagate the value. -/
structure non_propagating_cache (T : Type) where
  value_ : Option T
deriving DecidableEq, Repr

namespace non_propagating_cache

/-- Default constructor: `value_` is the default `std::optional`, i.e. empty. -/
def mk_default (T : Type) : non_propagating_cache T := ⟨none⟩

/-- `has_value()` — `return value_.has_value();`. -/
def has_value (c : non_propagating_cache T) : Bool := c.value_.isSome

/-- `emplace(args...)` — `return value_.emplace(...);` (always overwrites). -/
def emplace (c : non_propagating_cache T) (v : T) : non_propagating_cache T × T :=
  ({ c with value_ := some v }, v)

/-- Copy constructor: `value_{std::nullopt}` — the new object is empty and the
(const) source is untouched.  Returns `(destination, source after the call)`. -/
def copy_construct (other : non_propagating_cache T) :
    non_propagating_cache T × non_propagating_cache T :=
  (⟨none⟩, other)

/-- Move constructor: `value_{std::nullopt}` then `other.value_.reset()` — the
new object is empty and the source is emptied.
Returns `(destination, source after the call)`. -/
def move_construct (other : non_propagating_cache T) :
    non_propagating_cache T × non_propagating_cache T :=
  (⟨none⟩, { other with value_ := none })

/-- Copy assignment: `if (this != std::addressof(other)) value_.reset();`.
`same_object` models the pointer comparison `this == std::addressof(other)`;
when it holds, `self` and `other` are the one same object.
Returns `(destination, source after the call)`. -/
def copy_assign (self other : non_propagating_cache T) (same_object : Bool) :
    non_propagating_cache T × non_propagating_cache T :=
  if same_object then (self, other)
  else ({ self with value_ := none }, other)

/-- Move assignment: `value_.reset(); other.value_.reset();` (no self-check;
when `self` and `other` are the same object both components describe that one
object, which ends empty).  Returns `(destination, source after the call)`. -/
def move_assign (self other : non_propagating_cache T)
    (_same_object : Bool) :
    non_propagating_cache T × non_propagating_cache T :=
  ({ self with value_ := none }, { other with value_ := none })

end non_propagating_cache

namespace ranges

/-- From slice_view.hpp: the state of a `slice_view<R>` instance.
`cat` records the category of `R` (a template parameter in the source),
`base_len` the length of the stored `base_`, and `begin_`, `end_` the two
`mutable maybe_present_t<use_cached_iterators_, cached_iterator>` members,
where `cached_iterator = std::optional<std::ranges::iterator_t<R>>`.
When `use_cached_iterators_` is false the fields model the zero-size
placeholders; the member functions then never read or write them. -/
structure slice_view where
  cat : RangeCategory
  base_len : Nat
  start_index_ : Int
  end_index_ : Int
  begin_ : Option Nat
  end_ : Option Nat
deriving DecidableEq, Repr

namespace slice_view

/-- The value-constructor `slice_view(R base, difference_type start,
difference_type end)` with its three assertions
`assert(start >= 0); assert(end >= 0); assert(end >= start);` — a failing
assertion is modelled as `none`. -/
def mk_checked (cat : RangeCategory) (base_len : Nat) (start e : Int) :
    Option slice_view :=
  if 0 ≤ start ∧ 0 ≤ e ∧ start ≤ e then
    some { cat := cat, base_len := base_len, start_index_ := start,
           end_index_ := e, begin_ := none, end_ := none }
  else
    none

/-- `next(auto& iter, difference_type n)`: if caching is enabled and the cell
holds a value, return it; otherwise compute
`std::ranges::next(std::ranges::begin(base_), n, std::ranges::end(base_))`,
store it in the cell when caching is enabled, and return it.
Returns `(result iterator, cell after the call)`. -/
def next (sv : slice_view) (iter : Option Nat) (n : Int) : Nat × Option Nat :=
  if use_cached_iterators_ sv.cat then
    match iter with
    | some it => (it, some it)
    | none =>
      let next_iter := ranges_next sv.base_len n
      (next_iter, some next_iter)
  else
    (ranges_next sv.base_len n, iter)

/-- `begin()` — `return next(begin_, start_index_);` (the `mutable` cell
`begin_` may be written, so the updated view is returned too). -/
def begin (sv : slice_view) : Nat × slice_view :=
  let r := sv.next sv.begin_ sv.start_index_
  (r.1, { sv with begin_ := r.2 })

/-- `end()` — `return next(end_, end_index_);`. -/
def «end» (sv : slice_view) : Nat × slice_view :=
  let r := sv.next sv.end_ sv.end_index_
  (r.1, { sv with end_ := r.2 })

/-- `size()` — `max(0, clamp(end_index_, 0, ssize(base_)) -
clamp(start_index_, 0, ssize(base_)))`, cast to the unsigned counterpart of the
difference type.  The computed value is never negative, so the cast is exact
and modelled by `Int.toNat`.  The body never names `begin_` or `end_`, so the
embedding returns no updated state. -/
def size (sv : slice_view) : Nat :=
  let zero : Int := 0
  let base_size : Int := (sv.base_len : Int)
  let slice_size :=
    max zero (std_clamp sv.end_index_ zero base_size -
      std_clamp sv.start_index_ zero base_size)
  slice_size.toNat

/-- The implicitly-defaulted copy constructor of `slice_view`: memberwise copy.
A `std::optional` copy preserves the engaged state and the contained value, so
the whole record is copied unchanged. -/
def copy_construct (sv : slice_view) : slice_view := sv

/-- The implicitly-defaulted move constructor of `slice_view`: memberwise move.
Moving a `std::optional` leaves `other.has_value()` unchanged, and iterator
positions are trivially copyable, so both the moved-to and the moved-from view
carry the source's fields.  Returns `(moved-to, moved-from after the move)`. -/
def move_construct (sv : slice_view) : slice_view × slice_view := (sv, sv)

end slice_view

/-- The cache-cell invariant every view reachable through the public interface
satisfies: each cell is either empty or holds exactly the position the
bounded-advance computation produces for its endpoint. -/
def cache_valid (sv : slice_view) : Prop :=
  (sv.begin_ = none ∨ sv.begin_ = some (ranges_next sv.base_len sv.start_index_)) ∧
  (sv.end_ = none ∨ sv.end_ = some (ranges_next sv.base_len sv.end_index_))

/-- A concrete cache-eligible view (forward, not random-access, not sized —
e.g. over a `std::forward_list` of five elements) sliced with `[1, 3)`. -/
def sv_example : slice_view :=
  { cat := { forward := true, randomAccess := false, sized := false },
    base_len := 5, start_index_ := 1, end_index_ := 3,
    begin_ := none, end_ := none }

/-- `sv_example` after querying both endpoints, which populates both cache
cells. -/
def sv_populated : slice_view :=
  (slice_view.begin ((slice_view.«end» sv_example).2)).2

/-- Helper: when the cache cell is empty or holds the position the
bounded-advance computation would produce, `next` returns exactly that
position. -/
theorem next_val (sv : slice_view) (iter : Option Nat) (n : Int)
    (h : iter = none ∨ iter = some (ranges_next sv.base_len n)) :
    (sv.next iter n).1 = ranges_next sv.base_len n := by
  rcases h with h | h <;> subst h <;>
    · simp only [slice_view.next]
      split <;> rfl

/-- C1: evaluation of the code at the failing input.  After both endpoint
queries populate the caches of a cache-eligible slice view, the
implicitly-defaulted copy constructor copies the `std::optional` cache cells,
so the copy's cells are still populated (with the original's positions) and
the original's cells stay populated — the spec's claim that the copy starts
with empty cells does not hold. -/
theorem C1_copy_propagates_cache :
    (slice_view.copy_construct sv_populated).begin_ = some 1 ∧
    (slice_view.copy_construct sv_populated).end_ = some 3 ∧
    sv_populated.begin_ = some 1 ∧ sv_populated.end_ = some 3 := by
  decide

/-- C2: evaluation of the code at the failing input.  The
implicitly-defaulted move constructor moves the `std::optional` cache cells;
a moved-from `std::optional` keeps `has_value() == true`, so both the
moved-to and the moved-from view still hold populated cells — the spec's
claim that both end up empty does not hold. -/
theorem C2_move_retains_caches :
    (slice_view.move_construct sv_populated).1.begin_ = some 1 ∧
    (slice_view.move_construct sv_populated).1.end_ = some 3 ∧
    (slice_view.move_construct sv_populated).2.begin_ = some 1 ∧
    (slice_view.move_construct sv_populated).2.end_ = some 3 := by
  decide

/-- C3: for a view constructed with `0 ≤ start_index_ ≤ end_index_` over a
sized base of length `L`, `size()` returns exactly
`max 0 (min end_index_ L - min start_index_ L)` as an unsigned value, and
the result is the same whatever the two cache cells hold (and `size` returns
no updated state: the source body never names `begin_` or `end_`). -/
theorem C3_size_formula (cat : RangeCategory) (L : Nat) (s e : Int)
    (hs : 0 ≤ s) (hse : s ≤ e) (b c : Option Nat) :
    slice_view.size ⟨cat, L, s, e, b, c⟩
      = (max 0 (min e (L : Int) - min s (L : Int))).toNat := by
  simp only [slice_view.size, std_clamp]
  split_ifs <;> omega

/-- Witness for C3 at the clamped example from the spec: slicing `[3, 10)`
over a 5-element base yields 2 elements. -/
theorem C3_size_formula_witness :
    slice_view.size ⟨⟨true, true, true⟩, 5, 3, 10, none, none⟩
      = (max 0 (min 10 ((5 : Nat) : Int) - min 3 ((5 : Nat) : Int))).toNat :=
  C3_size_formula ⟨true, true, true⟩ 5 3 10 (by decide) (by decide) none none

/-- C4: each endpoint query returns the base's natural start advanced by at
most the requested offset, stopping at the natural end (i.e. position
`min offset base_len`); in particular the result never passes the end, so an
offset exceeding the base length is clamped rather than an error. -/
theorem C4_bounded_advance (sv : slice_view) (h : cache_valid sv)
    (_hs : 0 ≤ sv.start_index_) (_he : 0 ≤ sv.end_index_) :
    (sv.begin).1 = min sv.start_index_.toNat sv.base_len ∧
    (slice_view.«end» sv).1 = min sv.end_index_.toNat sv.base_len ∧
    (sv.begin).1 ≤ sv.base_len ∧ (slice_view.«end» sv).1 ≤ sv.base_len := by
  obtain ⟨hb, hc⟩ := h
  have h1 : (sv.begin).1 = ranges_next sv.base_len sv.start_index_ := by
    simpa [slice_view.begin] using next_val sv sv.begin_ sv.start_index_ hb
  have h2 : (slice_view.«end» sv).1 = ranges_next sv.base_len sv.end_index_ := by
    simpa [slice_view.«end»] using next_val sv sv.end_ sv.end_index_ hc
  refine ⟨?_, ?_, ?_, ?_⟩ <;> simp [h1, h2, ranges_next]

/-- Witness for C4 on the concrete cache-eligible example view. -/
theorem C4_bounded_advance_witness :
    (slice_view.begin sv_example).1
        = min sv_example.start_index_.toNat sv_example.base_len ∧
    (slice_view.«end» sv_example).1
        = min sv_example.end_index_.toNat sv_example.base_len ∧
    (slice_view.begin sv_example).1 ≤ sv_example.base_len ∧
    (slice_view.«end» sv_example).1 ≤ sv_example.base_len :=
  C4_bounded_advance sv_example ⟨Or.inl rfl, Or.inl rfl⟩ (by decide) (by decide)

/-- C7: the slice view enables cache storage exactly for forward ranges that
are not both random-access and sized (`use_cached_iterators_`), this is the
same predicate as `cacheable_range` from cached_iterator.hpp, and whenever it
is false `next` neither reads nor writes the placeholder cell: the result is
the freshly computed position and the cell is returned untouched. -/
theorem C7_cache_eligibility (c : RangeCategory) (sv : slice_view)
    (iter : Option Nat) (n : Int) :
    use_cached_iterators_ c = (c.forward && !(c.randomAccess && c.sized)) ∧
    use_cached_iterators_ c = cacheable_range c ∧
    (use_cached_iterators_ sv.cat = false →
      sv.next iter n = (ranges_next sv.base_len n, iter)) := by
  refine ⟨rfl, rfl, fun h => ?_⟩
  simp [slice_view.next, h]

/-- Helper: applying `next` a second time to the cell it returned gives the
same result and the same cell, whatever the initial cell held. -/
theorem next_idem (sv : slice_view) (iter : Option Nat) (n : Int) :
    sv.next (sv.next iter n).2 n = sv.next iter n := by
  by_cases hu : use_cached_iterators_ sv.cat <;>
    rcases iter with _ | q <;> simp [slice_view.next, hu]

/-- C8: on an unmutated base, repeated endpoint queries are idempotent: the
second `begin()` (resp. `end()`) returns the same position and leaves the view
state unchanged, and recomputing an endpoint from an emptied cache cell stores
and returns the same position the populated cell held. -/
theorem C8_idempotent (sv : slice_view) (h : cache_valid sv) :
    (slice_view.begin (sv.begin).2).1 = (sv.begin).1 ∧
    (slice_view.begin (sv.begin).2).2 = (sv.begin).2 ∧
    (slice_view.«end» (slice_view.«end» sv).2).1 = (slice_view.«end» sv).1 ∧
    (slice_view.«end» (slice_view.«end» sv).2).2 = (slice_view.«end» sv).2 ∧
    (slice_view.begin { sv with begin_ := none }).1 = (sv.begin).1 ∧
    (slice_view.«end» { sv with end_ := none }).1 = (slice_view.«end» sv).1 := by
  obtain ⟨cat, L, s, e, b, c⟩ := sv
  simp only [cache_valid] at h
  obtain ⟨hb | hb, hc | hc⟩ := h <;> subst hb <;> subst hc <;>
    by_cases hu : use_cached_iterators_ cat <;>
    simp [slice_view.begin, slice_view.«end», slice_view.next, hu]

/-- Witness for C8 on the concrete cache-eligible example view. -/
theorem C8_idempotent_witness :
    (slice_view.begin (slice_view.begin sv_example).2).1
        = (slice_view.begin sv_example).1 ∧
    (slice_view.begin (slice_view.begin sv_example).2).2
        = (slice_view.begin sv_example).2 ∧
    (slice_view.«end» (slice_view.«end» sv_example).2).1
        = (slice_view.«end» sv_example).1 ∧
    (slice_view.«end» (slice_view.«end» sv_example).2).2
        = (slice_view.«end» sv_example).2 ∧
    (slice_view.begin { sv_example with begin_ := none }).1
        = (slice_view.begin sv_example).1 ∧
    (slice_view.«end» { sv_example with end_ := none }).1
        = (slice_view.«end» sv_example).1 :=
  C8_idempotent sv_example ⟨Or.inl rfl, Or.inl rfl⟩

/-- C9: the constructor's assertions fire exactly on a negative `start`, a
negative `end`, or `end < start`; under the precondition
`0 ≤ start ≤ end` construction succeeds and stores the base and the two
indices unchanged, with both cache cells empty. -/
theorem C9_ctor_precondition (cat : RangeCategory) (L : Nat) (s e : Int) :
    ((s < 0 ∨ e < 0 ∨ e < s) → slice_view.mk_checked cat L s e = none) ∧
    (0 ≤ s → 0 ≤ e → s ≤ e →
      slice_view.mk_checked cat L s e = some ⟨cat, L, s, e, none, none⟩) := by
  constructor
  · intro h
    have hn : ¬(0 ≤ s ∧ 0 ≤ e ∧ s ≤ e) := by omega
    simp [slice_view.mk_checked, hn]
  · intro h1 h2 h3
    simp [slice_view.mk_checked, h1, h2, h3]

/-- Witness for C9: a negative start index trips an assertion, while valid
bounds construct the view with the indices stored unchanged. -/
theorem C9_ctor_precondition_witness :
    slice_view.mk_checked ⟨true, false, false⟩ 5 (-1) 3 = none ∧
    slice_view.mk_checked ⟨true, false, false⟩ 5 1 3
      = some ⟨⟨true, false, false⟩, 5, 1, 3, none, none⟩ :=
  ⟨(C9_ctor_precondition ⟨true, false, false⟩ 5 (-1) 3).1 (Or.inl (by decide)),
   (C9_ctor_precondition ⟨true, false, false⟩ 5 1 3).2
     (by decide) (by decide) (by decide)⟩

/-- Witness for C7: a random-access sized category ignores a (deliberately
bogus) populated cell — the computed position, not the cell's content, is
returned, and the cell is unchanged. -/
theorem C7_cache_eligibility_witness :
    slice_view.next ⟨⟨true, true, true⟩, 5, 1, 3, none, none⟩ (some 4) 1
      = (ranges_next 5 1, some 4) :=
  (C7_cache_eligibility ⟨true, true, true⟩
    ⟨⟨true, true, true⟩, 5, 1, 3, none, none⟩ (some 4) 1).2.2 (by decide)

end ranges

/-- C5: copy-constructing a `non_propagating_cache`, and copy-assigning from
it to a distinct instance (the `this != std::addressof(other)` branch), always
leave the destination empty and return the source exactly as it was —
populated/empty state and stored value untouched. -/
theorem C5_copy_resets_destination {T : Type}
    (self c : non_propagating_cache T) :
    (non_propagating_cache.copy_construct c).1.has_value = false ∧
    (non_propagating_cache.copy_construct c).2 = c ∧
    (non_propagating_cache.copy_assign self c false).1.has_value = false ∧
    (non_propagating_cache.copy_assign self c false).2 = c := by
  simp [non_propagating_cache.copy_construct, non_propagating_cache.copy_assign,
    non_propagating_cache.has_value]

/-- C6: move-constructing or move-assigning a `non_propagating_cache` always
leaves the destination empty and also empties the moved-from source. -/
theorem C6_move_empties_both {T : Type}
    (self c : non_propagating_cache T) (same : Bool) :
    (non_propagating_cache.move_construct c).1.has_value = false ∧
    (non_propagating_cache.move_construct c).2.has_value = false ∧
    (non_propagating_cache.move_assign self c same).1.has_value = false ∧
    (non_propagating_cache.move_assign self c same).2.has_value = false := by
  simp [non_propagating_cache.move_construct, non_propagating_cache.move_assign,
    non_propagating_cache.has_value]

/-- C10: self-copy-assignment of a populated `non_propagating_cache` is a
no-op (the value stays populated and unchanged), copy-assignment from a
distinct instance empties the destination, and self-move-assignment empties
the object. -/
theorem C10_self_assignment {T : Type} (v : T)
    (other : non_propagating_cache T) :
    (non_propagating_cache.copy_assign ⟨some v⟩ ⟨some v⟩ true).1 = ⟨some v⟩ ∧
    (non_propagating_cache.copy_assign ⟨some v⟩ other false).1.has_value = false ∧
    (non_propagating_cache.move_assign ⟨some v⟩ ⟨some v⟩ true).1.has_value = false := by
  simp [non_propagating_cache.copy_assign, non_propagating_cache.move_assign,
    non_propagating_cache.has_value]

end dd
